import Mathlib

/-!
Shallow embedding of `src/dtv/rd_client.py` (a Real-Debrid client) and proofs
about its specified behaviour.

Python strings are modelled as `List Char` (sequences of code points); machine
I/O (HTTP requests, the token store, the interactive prompt, `time.sleep`) is
modelled by passing the observed responses in explicitly and recording the
emitted effects.  Python exceptions are modelled with `Except`.
-/

set_option autoImplicit false

deriving instance DecidableEq for Except

namespace Dtv

/-- Model of a Python `str`: a sequence of code points. -/
abbrev PyStr := List Char

/-- Model of a raised Python exception (the code only raises `ValueError`). -/
inductive PyErr where
  | valueError (msg : String)
deriving DecidableEq, Repr

/-- Python `str.upper()`, restricted to the ASCII range (the only range the
hashes at issue inhabit). -/
def pyUpper (s : PyStr) : PyStr := s.map Char.toUpper

/-- Python `str.lower()`, restricted to the ASCII range. -/
def pyLower (s : PyStr) : PyStr := s.map Char.toLower

/-- The character class `[0-9a-fA-F]` of the hash regular expression. -/
def isHexDigit (c : Char) : Bool :=
  c.isDigit || ( 'a' ≤ c && c ≤ 'f' ) || ( 'A' ≤ c && c ≤ 'F' )

/-- Numeric value of a hex digit. -/
def hexVal (c : Char) : Nat :=
  if c.isDigit then c.toNat - '0'.toNat
  else if 'a' ≤ c && c ≤ 'f' then c.toNat - 'a'.toNat + 10
  else c.toNat - 'A'.toNat + 10

/-- Split at the first occurrence of `sep` (Python `s.split(sep, 1)` when the
separator occurs); `none` when `sep` does not occur. -/
def splitFirst (sep : Char) : PyStr → Option (PyStr × PyStr)
  | [] => none
  | c :: rest =>
    if c = sep then some ([], rest)
    else (splitFirst sep rest).map (fun p => (c :: p.1, p.2))

/-- Python `s.split(sep)` for a single-character separator (all occurrences);
`[[]]` on the empty string, matching Python. -/
def splitAll (sep : Char) : PyStr → List PyStr
  | [] => [[]]
  | c :: rest =>
    if c = sep then [] :: splitAll sep rest
    else
      match splitAll sep rest with
      | [] => [[c]]
      | p :: ps => (c :: p) :: ps

/-- Percent-decoding as in `urllib.parse.unquote` with each `%XX` escape
decoded to the code point of its byte value.  (CPython decodes runs of escaped
bytes as UTF-8; for the ASCII data relevant here the two agree.) -/
def unquote : PyStr → PyStr
  | [] => []
  | '%' :: a :: b :: rest =>
    if isHexDigit a && isHexDigit b then
      Char.ofNat (hexVal a * 16 + hexVal b) :: unquote rest
    else '%' :: unquote (a :: b :: rest)
  | c :: rest => c :: unquote rest

/-- The `nv.replace('+', ' ')` step of `parse_qsl` followed by `unquote`. -/
def unquotePlus (s : PyStr) : PyStr :=
  unquote (s.map (fun c => if c = '+' then ' ' else c))

/-- `urllib.parse.parse_qsl` with the default arguments: split the query on
`&`, keep only chunks holding `=` with a non-empty value, and percent-decode
names and values. -/
def parse_qsl (qs : PyStr) : List (PyStr × PyStr) :=
  let pairs := if qs = [] then [] else splitAll '&' qs
  pairs.filterMap (fun nameValue =>
    if nameValue = [] then none
    else
      match splitFirst '=' nameValue with
      | none => none
      | some (name, value) =>
        if value = [] then none
        else some (unquotePlus name, unquotePlus value))

/-- Append a value under a key of the aggregated query dictionary, preserving
insertion order as Python dicts do. -/
def addPair (k v : PyStr) : List (PyStr × List PyStr) → List (PyStr × List PyStr)
  | [] => [(k, [v])]
  | (k0, vs) :: rest =>
    if k0 = k then (k0, vs ++ [v]) :: rest else (k0, vs) :: addPair k v rest

/-- `urllib.parse.parse_qs` with the default arguments: `parse_qsl` aggregated
into a key → list-of-values dictionary. -/
def parse_qs (qs : PyStr) : List (PyStr × List PyStr) :=
  (parse_qsl qs).foldl (fun d p => addPair p.1 p.2 d) []

/-- Python `params.get(k, [''])[0]` on the aggregated dictionary. -/
def dictGetFirst (d : List (PyStr × List PyStr)) (k : PyStr) : PyStr :=
  match d.find? (fun p => p.1 = k) with
  | some p => p.2.headD []
  | none => []

/-- Result of `urllib.parse.urlsplit` (the `params` component of `urlparse`
is split out of `path` only, and the code reads only `query`, so `urlparse`
and `urlsplit` agree on everything used here). -/
structure UrlSplitResult where
  scheme : PyStr
  netloc : PyStr
  path : PyStr
  query : PyStr
  fragment : PyStr
deriving DecidableEq, Repr

/-- The scheme-character set of `urllib.parse` (`letters, digits, +, -, .`). -/
def isSchemeChar (c : Char) : Bool :=
  c.isAlpha || c.isDigit || c == '+' || c == '-' || c == '.'

/-- CPython accepts `url[:i]` as a scheme when it is non-empty, starts with an
ASCII letter and consists of scheme characters only. -/
def validScheme : PyStr → Bool
  | [] => false
  | c :: rest => c.isAlpha && ( (c :: rest).all isSchemeChar )

/-- `urllib.parse.urlparse` restricted to the fields the client reads: strip
leading C0-control/space characters, drop tab/CR/LF, split off the scheme,
netloc (rejecting unbalanced brackets as CPython does), fragment and query. -/
def urlparse (url0 : PyStr) : Except PyErr UrlSplitResult :=
  let u1 := url0.dropWhile (fun c => c.val ≤ 32)
  let u2 := u1.filter (fun c => !( c == '\t' || c == '\r' || c == '\n' ))
  let schemeSplit : PyStr × PyStr :=
    match splitFirst ':' u2 with
    | some (before, after) =>
      if validScheme before then (pyLower before, after) else ([], u2)
    | none => ([], u2)
  let scheme := schemeSplit.1
  let u3 := schemeSplit.2
  match u3 with
  | '/' :: '/' :: rest =>
    let netloc := rest.takeWhile (fun c => !( c == '/' || c == '?' || c == '#' ))
    let u4 := rest.dropWhile (fun c => !( c == '/' || c == '?' || c == '#' ))
    if ( netloc.contains '[' && !netloc.contains ']' ) ||
       ( netloc.contains ']' && !netloc.contains '[' ) then
      .error (.valueError "Invalid IPv6 URL")
    else
      let fragSplit := match splitFirst '#' u4 with
        | some (a, b) => (a, b)
        | none => (u4, ([] : PyStr))
      let querySplit := match splitFirst '?' fragSplit.1 with
        | some (a, b) => (a, b)
        | none => (fragSplit.1, ([] : PyStr))
      .ok ⟨scheme, netloc, querySplit.1, querySplit.2, fragSplit.2⟩
  | _ =>
    let fragSplit := match splitFirst '#' u3 with
      | some (a, b) => (a, b)
      | none => (u3, ([] : PyStr))
    let querySplit := match splitFirst '?' fragSplit.1 with
      | some (a, b) => (a, b)
      | none => (fragSplit.1, ([] : PyStr))
    .ok ⟨scheme, [], querySplit.1, querySplit.2, fragSplit.2⟩

/-- The `xt` parameter the code reads:
`parse_qs(urlparse(magnet).query).get('xt', [''])[0]`. -/
def magnetXt (magnet : PyStr) : Except PyErr PyStr :=
  (urlparse magnet).map (fun parsed => dictGetFirst (parse_qs parsed.query) ("xt".toList))

/-- `re.match(r'urn:btih:([0-9a-fA-F]{40})', xt)`: a PREFIX match — succeed
whenever `xt` starts with `urn:btih:` followed by at least 40 hex digits, and
capture exactly the first 40 of them. -/
def btihMatch (xt : PyStr) : Option PyStr :=
  if xt.take 9 = "urn:btih:".toList then
    if ((xt.drop 9).take 40).length == 40 && ((xt.drop 9).take 40).all isHexDigit then
      some ((xt.drop 9).take 40)
    else none
  else none

/-- `extract_magnet_hash`: parse the magnet URI, read its `xt` parameter,
match it against the info-hash pattern and return the hash uppercased;
raise `ValueError` when no valid hash is found. -/
def extract_magnet_hash (magnet : PyStr) : Except PyErr PyStr :=
  match magnetXt magnet with
  | .error e => .error e
  | .ok xt =>
    match btihMatch xt with
    | some h => .ok (pyUpper h)
    | none => .error (.valueError "Invalid magnet link: no valid hash found")

/-- One entry of the account torrent list returned by `GET torrents`
(the fields `check_existing_torrent` reads). -/
structure TorrentRec where
  hash : PyStr
  id : String
deriving DecidableEq, Repr

/-- The `for torrent in torrents` scan of `check_existing_torrent`:
return the id of the first entry whose uppercased hash equals `input_hash`. -/
def torrentScan : List TorrentRec → PyStr → Option String
  | [], _ => none
  | t :: ts, input_hash =>
    if pyUpper t.hash = input_hash then some t.id else torrentScan ts input_hash

/-- `check_existing_torrent`, with the fetched torrent list passed in
explicitly in place of the `GET torrents` round trip.  `input_val` is taken
verbatim as the hash when `is_hash` is set and run through
`extract_magnet_hash` otherwise; the `is_magnet` flag is never read. -/
def check_existing_torrent (torrents : List TorrentRec) (input_val : PyStr)
    (is_magnet : Bool) (is_hash : Bool) : Except PyErr (Option String) :=
  match (if is_hash then .ok input_val else extract_magnet_hash input_val : Except PyErr PyStr) with
  | .error e => .error e
  | .ok input_hash => .ok (torrentScan torrents input_hash)

/-- Spec-side scan, written from the amended claim: the first torrent whose
stored hash, uppercased, equals the target, projected to its id. -/
def firstMatchId (torrents : List TorrentRec) (target : PyStr) : Option String :=
  (torrents.find? (fun t => pyUpper t.hash = target)).map TorrentRec.id

/-- The `streaming/mediaInfos` response body as `get_rdplayer_link` reads it:
`response.json().get('streamable')`, `none` when the field is absent. -/
structure MediaInfoResponse where
  streamable : Option String
deriving DecidableEq, Repr

/-- `get_rdplayer_link`, with the successful remote response passed in
explicitly.  `if not player_link:` treats both an absent field and an empty
string as missing. -/
def get_rdplayer_link (resp : MediaInfoResponse) : Except PyErr String :=
  let player_link := resp.streamable
  match player_link with
  | none => .error (.valueError "No streamable link found for RDPlayer.")
  | some s =>
    if s = "" then .error (.valueError "No streamable link found for RDPlayer.")
    else .ok s

/-- One polled torrent record (`get_torrent_info` response): the `status`
field the loop inspects, plus the rest of the JSON body. -/
structure TorrentInfo where
  status : String
  fields : List (String × String)
deriving DecidableEq, Repr

/-- The failure statuses of `wait_for_torrent_ready`. -/
def failStatuses : List String := ["error", "magnet_error", "virus", "dead"]

/-- A status on which the polling loop stops. -/
def isTerminal (s : String) : Bool := s == "downloaded" || failStatuses.contains s

/-- Outcome of the polling loop: a returned record or a raised `ValueError`. -/
inductive PollOutcome where
  | ready (info : TorrentInfo)
  | failed (err : PyErr)
deriving DecidableEq, Repr

/-- A finished run of the polling loop, with its observable effect counts:
how many `get_torrent_info` fetches and how many `time.sleep` calls ran. -/
structure PollRun where
  outcome : PollOutcome
  fetches : Nat
  sleeps : Nat
deriving DecidableEq, Repr

/-- `wait_for_torrent_ready` run against a finite prefix of the sequence of
records the successive fetches would observe: `none` means the prefix was
exhausted with the loop still going (each non-terminal poll sleeps and
re-fetches). -/
def wait_for_torrent_ready : List TorrentInfo → Option PollRun
  | [] => none
  | info :: rest =>
    if info.status = "downloaded" then
      some ⟨.ready info, 1, 0⟩
    else if failStatuses.contains info.status then
      some ⟨.failed (.valueError ("Torrent failed with status: " ++ info.status)), 1, 0⟩
    else
      (wait_for_torrent_ready rest).map (fun r => ⟨r.outcome, r.fetches + 1, r.sleeps + 1⟩)

/-- `wait_for_torrent_ready` against an infinite stream of polled records,
cut off after `fuel` polls: the loop itself has no bound, so termination is
studied through these finite unrollings. -/
def runWait (polls : Nat → TorrentInfo) (fuel : Nat) : Option PollRun :=
  wait_for_torrent_ready ((List.range fuel).map polls)

/-- Environment of one `get_valid_token` call: the stored token
(`load_token()`, `none` or `some ""` both falsy), whether the remote `GET
user` validation succeeds for a given token, and the line the interactive
prompt returns. -/
structure TokenEnv where
  stored : Option String
  validates : String → Bool
  promptInput : String

/-- Errors `get_valid_token` raises: `ValueError "API token is required."`
(the spec's ConfigurationError) and `ValueError "Invalid token or API error:
..."` (the spec's AuthenticationError, message carrying the cause). -/
inductive TokenErr where
  | configurationError
  | authenticationError
deriving DecidableEq, Repr

/-- Trace of one `get_valid_token` call: its outcome, the tokens sent to the
remote validation endpoint in order, and the `save_token` writes in order. -/
structure TokenTrace where
  outcome : Except TokenErr String
  validationCalls : List String
  saves : List String
deriving Repr

/-- Python `str.strip()` with no argument: drop whitespace from both ends.
(Python strips Unicode whitespace; `Char.isWhitespace` covers the ASCII
whitespace at issue.) -/
def pyStrip (s : String) : String :=
  String.mk (((s.data.dropWhile Char.isWhitespace).reverse.dropWhile Char.isWhitespace).reverse)

/-- The prompt-and-validate tail of `get_valid_token` (everything after the
stored-token branch); `calls` are the validation requests already issued. -/
def promptPhase (env : TokenEnv) (calls : List String) : TokenTrace :=
  let token := pyStrip env.promptInput
  if token = "" then
    { outcome := .error .configurationError, validationCalls := calls, saves := [] }
  else if env.validates token then
    { outcome := .ok token, validationCalls := calls ++ [token], saves := [token] }
  else
    { outcome := .error .authenticationError, validationCalls := calls ++ [token], saves := [] }

/-- `get_valid_token`: validate the stored token when present and non-empty
(Python truthiness) and return it unchanged on success; otherwise prompt,
reject blank input, validate the fresh token and persist it on success. -/
def get_valid_token (env : TokenEnv) : TokenTrace :=
  match env.stored with
  | some t =>
    if t ≠ "" then
      if env.validates t then
        { outcome := .ok t, validationCalls := [t], saves := [] }
      else promptPhase env [t]
    else promptPhase env []
  | none => promptPhase env []

/-! Concrete inputs used by witnesses and counterexamples. -/

/-- The spec's scenario magnet URI (lowercase hash, `dn` parameter). -/
def scenarioMagnet : PyStr :=
  "magnet:?xt=urn:btih:abcdef0123456789abcdef0123456789abcdef01&dn=test".toList

/-- The spec's scenario hash, as it appears (lowercase) in `scenarioMagnet`. -/
def scenarioHex : PyStr := "abcdef0123456789abcdef0123456789abcdef01".toList

/-- A magnet whose `xt` holds 41 hex characters after `urn:btih:`. -/
def tooLongMagnet : PyStr := "magnet:?xt=urn:btih:".toList ++ List.replicate 41 'a'

/-- A stored torrent whose hash is the scenario hash in uppercase. -/
def upperHashRec : TorrentRec :=
  ⟨"ABCDEF0123456789ABCDEF0123456789ABCDEF01".toList, "t1"⟩

/-- Scenario list for C4: two in-progress polls, then `downloaded`. -/
def pollingScenario : List TorrentInfo :=
  [⟨"downloading", []⟩, ⟨"downloading", []⟩, ⟨"downloaded", [("filename", "movie.mkv")]⟩]

/-- Scenario list for C5: one in-progress poll, then `dead`. -/
def deadScenario : List TorrentInfo := [⟨"downloading", []⟩, ⟨"dead", []⟩]

/-! Helper lemmas. -/

/-- The info-hash pattern accepts `urn:btih:` followed by exactly the hex
characters of a 40-character hex string, capturing that string. -/
theorem btihMatch_prefix_append (hex : PyStr) (hlen : hex.length = 40)
    (hhex : hex.all isHexDigit = true) :
    btihMatch ("urn:btih:".toList ++ hex) = some hex := by
  have h1 : ("urn:btih:".toList ++ hex).take 9 = "urn:btih:".toList :=
    List.take_left' (by decide)
  have h2 : ("urn:btih:".toList ++ hex).drop 9 = hex := List.drop_left' (by decide)
  have h3 : hex.take 40 = hex := by
    rw [← hlen]; exact List.take_length hex
  simp [btihMatch, h1, h2, h3, hlen, hhex]

/-- Anatomy of a successful info-hash match: the capture is the first 40
characters after the `urn:btih:` prefix, all hex. -/
theorem btihMatch_some_spec (xt h : PyStr) (hs : btihMatch xt = some h) :
    h.length = 40 ∧ h.all isHexDigit = true ∧ xt.take 9 = "urn:btih:".toList ∧
    h = (xt.drop 9).take 40 := by
  unfold btihMatch at hs
  by_cases h1 : xt.take 9 = "urn:btih:".toList
  · rw [if_pos h1] at hs
    by_cases h2 : (((xt.drop 9).take 40).length == 40 && ((xt.drop 9).take 40).all isHexDigit) = true
    · rw [if_pos h2] at hs
      obtain rfl : (xt.drop 9).take 40 = h := by injection hs
      simp only [Bool.and_eq_true, beq_iff_eq] at h2
      exact ⟨h2.1, h2.2, h1, rfl⟩
    · rw [if_neg h2] at hs
      cases hs
  · rw [if_neg h1] at hs
    cases hs

/-- The linear scan of `check_existing_torrent` is first-match lookup. -/
theorem torrentScan_eq_firstMatchId (torrents : List TorrentRec) (target : PyStr) :
    torrentScan torrents target = firstMatchId torrents target := by
  induction torrents with
  | nil => rfl
  | cons t ts ih =>
    by_cases h : pyUpper t.hash = target
    · simp [torrentScan, firstMatchId, List.find?_cons, h]
    · simp only [torrentScan, firstMatchId, List.find?_cons] at ih ⊢
      simp [h, ih]

/-! Claim theorems. -/

/-- C1 (counterexample): with `is_hash` set, a lowercase target hash does NOT
match an uppercase stored hash — the code uppercases only the stored side —
so the spec's scenario returns the not-found sentinel instead of `"t1"`. -/
theorem check_existing_torrent_lowercase_direct_hash_misses :
    check_existing_torrent [upperHashRec] scenarioHex false true ≠ .ok (some "t1") ∧
    check_existing_torrent [upperHashRec] scenarioHex false true = .ok none := by decide

/-- C1 (amended): `check_existing_torrent` returns the id of the first torrent
whose stored hash, uppercased, equals the target — the target being the input
VERBATIM when `is_hash` is set (so a lowercase direct target misses uppercase
records), and the uppercased extracted hash when a magnet is supplied — and
the not-found sentinel exactly when no entry matches, including on the empty
list. -/
theorem check_existing_torrent_spec (torrents : List TorrentRec)
    (input_val : PyStr) (im : Bool) :
    check_existing_torrent torrents input_val im true
      = .ok (firstMatchId torrents input_val) ∧
    (∀ H, extract_magnet_hash input_val = .ok H →
      check_existing_torrent torrents input_val im false
        = .ok (firstMatchId torrents H)) ∧
    (∀ target, firstMatchId torrents target = none ↔
      ∀ t ∈ torrents, pyUpper t.hash ≠ target) := by
  refine ⟨?_, ?_, ?_⟩
  · simp [check_existing_torrent, torrentScan_eq_firstMatchId]
  · intro H hH
    simp [check_existing_torrent, hH, torrentScan_eq_firstMatchId]
  · intro target
    simp [firstMatchId, Option.map_eq_none, List.find?_eq_none]

/-- C1 (witness): the scenario torrent list with an uppercase stored hash is
found from the scenario magnet carrying the same hash in lowercase. -/
theorem check_existing_torrent_spec_witness :
    check_existing_torrent [upperHashRec] scenarioMagnet true false = .ok (some "t1") := by
  have h := (check_existing_torrent_spec [upperHashRec] scenarioMagnet true).2.1
    ("ABCDEF0123456789ABCDEF0123456789ABCDEF01".toList) (by decide)
  rw [h]; decide

/-- C2: whenever the magnet's `xt` parameter is exactly `urn:btih:` followed
by 40 hex characters, `extract_magnet_hash` returns those characters
uppercased, whatever their input case. -/
theorem extract_magnet_hash_valid (magnet hex : PyStr)
    (hxt : magnetXt magnet = .ok ("urn:btih:".toList ++ hex))
    (hlen : hex.length = 40)
    (hhex : hex.all isHexDigit = true) :
    extract_magnet_hash magnet = .ok (pyUpper hex) := by
  simp only [extract_magnet_hash, hxt, btihMatch_prefix_append hex hlen hhex]

/-- C2 (witness): the spec's scenario magnet yields the uppercased hash. -/
theorem extract_magnet_hash_valid_witness :
    extract_magnet_hash scenarioMagnet
      = .ok ("ABCDEF0123456789ABCDEF0123456789ABCDEF01".toList) := by
  have h := extract_magnet_hash_valid scenarioMagnet scenarioHex
    (by decide) (by decide) (by decide)
  rw [h]; decide

/-- C3 (counterexample): an `xt` with 41 hex characters after `urn:btih:` is
"too long" — it does not match the pattern as a whole — yet the code's prefix
match succeeds and returns the first 40 characters uppercased instead of
raising. -/
theorem extract_magnet_hash_too_long_succeeds :
    magnetXt tooLongMagnet = .ok ("urn:btih:".toList ++ List.replicate 41 'a') ∧
    (List.replicate 41 'a' : PyStr).length ≠ 40 ∧
    extract_magnet_hash tooLongMagnet = .ok (List.replicate 40 'A') := by decide

/-- C3 (amended): `extract_magnet_hash` fails with the `ValueError` exactly
when the `xt` parameter (empty when absent) does not start with `urn:btih:`
followed by at least 40 hex characters — too short, non-hex, or wrong prefix;
a longer hex run does not fail, the first 40 characters are taken. -/
theorem extract_magnet_hash_invalid (magnet xt : PyStr)
    (hxt : magnetXt magnet = .ok xt) :
    (btihMatch xt = none →
      extract_magnet_hash magnet
        = .error (.valueError "Invalid magnet link: no valid hash found")) ∧
    (∀ h, btihMatch xt = some h →
      extract_magnet_hash magnet = .ok (pyUpper h) ∧
      h.length = 40 ∧ h.all isHexDigit = true ∧
      xt.take 9 = "urn:btih:".toList ∧ h = (xt.drop 9).take 40) := by
  constructor
  · intro hnone
    simp only [extract_magnet_hash, hxt, hnone]
  · intro h hsome
    refine ⟨?_, btihMatch_some_spec xt h hsome⟩
    simp only [extract_magnet_hash, hxt, hsome]

/-- C3 (witness): a magnet without an `xt` parameter raises the error. -/
theorem extract_magnet_hash_invalid_witness :
    extract_magnet_hash ("magnet:?dn=test".toList)
      = .error (.valueError "Invalid magnet link: no valid hash found") :=
  (extract_magnet_hash_invalid ("magnet:?dn=test".toList) [] (by decide)).1 (by decide)

/-- C9 (counterexample): a response whose `streamable` field is present but
empty also raises the error, so failure is not exactly "field absent". -/
theorem get_rdplayer_link_empty_field_fails :
    get_rdplayer_link (MediaInfoResponse.mk (some ""))
      = .error (.valueError "No streamable link found for RDPlayer.") ∧
    (MediaInfoResponse.mk (some "")).streamable ≠ none := by decide

/-- C9 (amended): `get_rdplayer_link` returns the `streamable` field whenever
it is present and non-empty, and fails with the `ValueError` exactly when the
field is absent or the empty string. -/
theorem get_rdplayer_link_spec (resp : MediaInfoResponse) :
    (∀ s, resp.streamable = some s → s ≠ "" → get_rdplayer_link resp = .ok s) ∧
    (get_rdplayer_link resp
        = .error (.valueError "No streamable link found for RDPlayer.") ↔
      (resp.streamable = none ∨ resp.streamable = some "")) := by
  obtain ⟨st⟩ := resp
  constructor
  · intro s hs hne
    cases st with
    | none => cases hs
    | some v =>
      obtain rfl : v = s := by injection hs
      simp [get_rdplayer_link, hne]
  · cases st with
    | none => simp [get_rdplayer_link]
    | some v =>
      by_cases hv : v = ""
      · simp [get_rdplayer_link, hv]
      · simp [get_rdplayer_link, hv]

/-- C9 (witness): a present, non-empty `streamable` field is returned. -/
theorem get_rdplayer_link_spec_witness :
    get_rdplayer_link (MediaInfoResponse.mk (some "https://rd.example/stream"))
      = .ok "https://rd.example/stream" :=
  (get_rdplayer_link_spec (MediaInfoResponse.mk (some "https://rd.example/stream"))).1
    "https://rd.example/stream" rfl (by decide)

/-- C10: `check_existing_torrent` never reads `is_magnet`: its result is the
same for both values of the flag, and with `is_hash` false the input always
goes through `extract_magnet_hash`. -/
theorem check_existing_torrent_ignores_is_magnet (torrents : List TorrentRec)
    (input_val : PyStr) (b1 b2 hashFlag : Bool) :
    check_existing_torrent torrents input_val b1 hashFlag
      = check_existing_torrent torrents input_val b2 hashFlag ∧
    check_existing_torrent torrents input_val b1 false
      = (match extract_magnet_hash input_val with
         | .error e => .error e
         | .ok H => .ok (torrentScan torrents H)) :=
  ⟨rfl, rfl⟩

/-- A status is non-terminal exactly when it is neither `downloaded` nor a
failure status. -/
theorem isTerminal_false_iff (s : String) :
    isTerminal s = false ↔ s ≠ "downloaded" ∧ s ∉ failStatuses := by
  simp [isTerminal]

/-- The polling loop returns exactly when some prefix element is terminal. -/
theorem wait_isSome_iff (l : List TorrentInfo) :
    (wait_for_torrent_ready l).isSome = true ↔
      ∃ info ∈ l, isTerminal info.status = true := by
  induction l with
  | nil => simp [wait_for_torrent_ready]
  | cons info rest ih =>
    by_cases hd : info.status = "downloaded"
    · simp [wait_for_torrent_ready, hd, isTerminal]
    · by_cases hf : info.status ∈ failStatuses
      · simp [wait_for_torrent_ready, hd, hf, isTerminal]
      · simp [wait_for_torrent_ready, hd, hf, isTerminal, ih]

/-- C4: when the first terminal status observed is `downloaded` at poll `i`
(zero-based), `wait_for_torrent_ready` returns that very record after exactly
`i + 1` fetches and `i` sleeps — no fetch and no sleep after the
observation. -/
theorem wait_for_torrent_ready_returns_on_downloaded (l : List TorrentInfo)
    (i : Nat) (info : TorrentInfo)
    (hget : l.get? i = some info)
    (hstat : info.status = "downloaded")
    (hbefore : ∀ infoJ ∈ l.take i, isTerminal infoJ.status = false) :
    wait_for_torrent_ready l = some ⟨.ready info, i + 1, i⟩ := by
  induction l generalizing i with
  | nil => cases hget
  | cons info0 rest ih =>
    cases i with
    | zero =>
      obtain rfl : info0 = info := by injection hget
      simp [wait_for_torrent_ready, hstat]
    | succ k =>
      have h0 : isTerminal info0.status = false := by
        exact hbefore info0 (by simp)
      rw [isTerminal_false_iff] at h0
      obtain ⟨hd, hf⟩ := h0
      have hrest := ih k hget (fun infoJ hmem => hbefore infoJ (by simpa using List.mem_cons_of_mem info0 hmem))
      simp [wait_for_torrent_ready, hd, hf, hrest]

/-- C4 (witness): statuses `downloading, downloading, downloaded` give three
fetches, two sleeps and a successful return of the third record. -/
theorem wait_for_torrent_ready_returns_on_downloaded_witness :
    wait_for_torrent_ready pollingScenario
      = some ⟨.ready ⟨"downloaded", [("filename", "movie.mkv")]⟩, 3, 2⟩ :=
  wait_for_torrent_ready_returns_on_downloaded pollingScenario 2
    ⟨"downloaded", [("filename", "movie.mkv")]⟩ (by decide) (by decide) (by decide)

/-- C5: when the first terminal status observed is one of `error`,
`magnet_error`, `virus`, `dead` at poll `i`, `wait_for_torrent_ready` raises
the `ValueError` naming that status after exactly `i + 1` fetches and `i`
sleeps — no further fetch once the failure is observed. -/
theorem wait_for_torrent_ready_fails_on_failure (l : List TorrentInfo)
    (i : Nat) (info : TorrentInfo)
    (hget : l.get? i = some info)
    (hstat : info.status ∈ failStatuses)
    (hbefore : ∀ infoJ ∈ l.take i, isTerminal infoJ.status = false) :
    wait_for_torrent_ready l
      = some ⟨.failed (.valueError ("Torrent failed with status: " ++ info.status)), i + 1, i⟩ := by
  induction l generalizing i with
  | nil => cases hget
  | cons info0 rest ih =>
    cases i with
    | zero =>
      obtain rfl : info0 = info := by injection hget
      have hd : info0.status ≠ "downloaded" := by
        intro h
        rw [h] at hstat
        simp [failStatuses] at hstat
      simp [wait_for_torrent_ready, hd, hstat]
    | succ k =>
      have h0 : isTerminal info0.status = false := by
        exact hbefore info0 (by simp)
      rw [isTerminal_false_iff] at h0
      obtain ⟨hd, hf⟩ := h0
      have hrest := ih k hget (fun infoJ hmem => hbefore infoJ (by simpa using List.mem_cons_of_mem info0 hmem))
      simp [wait_for_torrent_ready, hd, hf, hrest]

/-- C5 (witness): `dead` on the second poll raises the `ValueError` naming
`dead` after exactly two fetches and one sleep. -/
theorem wait_for_torrent_ready_fails_on_failure_witness :
    wait_for_torrent_ready deadScenario
      = some ⟨.failed (.valueError "Torrent failed with status: dead"), 2, 1⟩ := by
  have h := wait_for_torrent_ready_fails_on_failure deadScenario 1 ⟨"dead", []⟩
    (by decide) (by decide) (by decide)
  rw [h]
  decide

/-- C6: the unbounded polling loop finishes — under some finite fuel — if and
only if the polled status stream eventually reaches a terminal status; a
stream that never does leaves every finite unrolling still running (the loop
has no retry bound and no timeout). -/
theorem wait_for_torrent_ready_terminates_iff (polls : Nat → TorrentInfo) :
    ((∃ n, isTerminal (polls n).status = true) ↔
      ∃ fuel r, runWait polls fuel = some r) ∧
    ((∀ n, isTerminal (polls n).status = false) →
      ∀ fuel, runWait polls fuel = none) := by
  have key : ∀ fuel, (runWait polls fuel).isSome = true ↔
      ∃ i, i < fuel ∧ isTerminal (polls i).status = true := by
    intro fuel
    rw [runWait, wait_isSome_iff]
    constructor
    · rintro ⟨info, hmem, hterm⟩
      rw [List.mem_map] at hmem
      obtain ⟨i, hi, rfl⟩ := hmem
      exact ⟨i, List.mem_range.mp hi, hterm⟩
    · rintro ⟨i, hi, hterm⟩
      exact ⟨polls i, List.mem_map.mpr ⟨i, List.mem_range.mpr hi, rfl⟩, hterm⟩
  constructor
  · constructor
    · rintro ⟨n, hn⟩
      have hsome := (key (n + 1)).mpr ⟨n, Nat.lt_succ_self n, hn⟩
      obtain ⟨r, hr⟩ := Option.isSome_iff_exists.mp hsome
      exact ⟨n + 1, r, hr⟩
    · rintro ⟨fuel, r, hr⟩
      have hsome : (runWait polls fuel).isSome = true := by rw [hr]; rfl
      obtain ⟨i, _, hterm⟩ := (key fuel).mp hsome
      exact ⟨i, hterm⟩
  · intro hall fuel
    cases hcase : runWait polls fuel with
    | none => rfl
    | some r =>
      have hsome : (runWait polls fuel).isSome = true := by rw [hcase]; rfl
      obtain ⟨i, _, hterm⟩ := (key fuel).mp hsome
      rw [hall i] at hterm
      cases hterm

/-- C6 (witness): a stream stuck on `downloading` is still running after five
unrolled polls. -/
theorem wait_for_torrent_ready_terminates_iff_witness :
    runWait (fun _ => TorrentInfo.mk "downloading" []) 5 = none :=
  (wait_for_torrent_ready_terminates_iff (fun _ => TorrentInfo.mk "downloading" [])).2
    (fun _ => rfl) 5

/-- C7: `get_valid_token` writes the token store at most once, only with the
freshly prompted (stripped) token and only after that token validated; and
when the stored token is present, non-empty and validates, it is returned
unchanged with no store write at all. -/
theorem get_valid_token_store_writes (env : TokenEnv) :
    (get_valid_token env).saves.length ≤ 1 ∧
    (∀ t ∈ (get_valid_token env).saves,
      t = pyStrip env.promptInput ∧ env.validates t = true) ∧
    (∀ t, env.stored = some t → t ≠ "" → env.validates t = true →
      (get_valid_token env).outcome = .ok t ∧ (get_valid_token env).saves = []) := by
  obtain ⟨stored, val, pin⟩ := env
  have hprompt : ∀ calls,
      (promptPhase ⟨stored, val, pin⟩ calls).saves.length ≤ 1 ∧
      ∀ t ∈ (promptPhase ⟨stored, val, pin⟩ calls).saves,
        t = pyStrip pin ∧ val t = true := by
    intro calls
    unfold promptPhase
    by_cases h1 : pyStrip pin = ""
    · simp [h1]
    · by_cases h2 : val (pyStrip pin) = true
      · simp [h1, h2]
      · simp [h1, h2]
  cases stored with
  | none =>
    refine ⟨(hprompt []).1, (hprompt []).2, ?_⟩
    intro t ht
    cases ht
  | some s =>
    by_cases hs : s = ""
    · subst hs
      refine ⟨(hprompt []).1, ?_, ?_⟩
      · simpa [get_valid_token] using (hprompt []).2
      · intro t ht hne
        obtain rfl : "" = t := by injection ht
        exact absurd rfl hne
    · by_cases hv : val s = true
      · refine ⟨?_, ?_, ?_⟩
        · simp [get_valid_token, hs, hv]
        · simp [get_valid_token, hs, hv]
        · intro t ht _ _
          obtain rfl : s = t := by injection ht
          simp [get_valid_token, hs, hv]
      · refine ⟨?_, ?_, ?_⟩
        · simpa [get_valid_token, hs, hv] using (hprompt [s]).1
        · simpa [get_valid_token, hs, hv] using (hprompt [s]).2
        · intro t ht hne hval
          obtain rfl : s = t := by injection ht
          exact absurd hval hv

/-- C7 (witness): a stored, non-empty, validating token is returned unchanged
and nothing is written to the store. -/
theorem get_valid_token_store_writes_witness :
    (get_valid_token ⟨some "tok", fun _ => true, "ignored"⟩).outcome = .ok "tok" ∧
    (get_valid_token ⟨some "tok", fun _ => true, "ignored"⟩).saves = [] :=
  (get_valid_token_store_writes ⟨some "tok", fun _ => true, "ignored"⟩).2.2
    "tok" rfl (by decide) rfl

/-- C8: when no usable stored token exists (absent, empty, or failing
validation) and the prompt input strips to the empty string,
`get_valid_token` raises the configuration error, issues no validation
request for the empty token and writes nothing to the store. -/
theorem get_valid_token_blank_prompt (env : TokenEnv)
    (hstored : env.stored = none ∨
      ∃ t, env.stored = some t ∧ (t = "" ∨ env.validates t = false))
    (hprompt : pyStrip env.promptInput = "") :
    (get_valid_token env).outcome = .error .configurationError ∧
    (get_valid_token env).saves = [] ∧
    "" ∉ (get_valid_token env).validationCalls := by
  obtain ⟨stored, val, pin⟩ := env
  simp only at hprompt
  rcases hstored with hnone | ⟨t, ht, hbad⟩
  · obtain rfl : stored = none := hnone
    simp [get_valid_token, promptPhase, hprompt]
  · obtain rfl : stored = some t := ht
    rcases hbad with rfl | hval
    · simp [get_valid_token, promptPhase, hprompt]
    · by_cases hte : t = ""
      · subst hte
        simp [get_valid_token, promptPhase, hprompt]
      · have hv0 : val t = false := hval
        have hv : ¬val t = true := by simp [hv0]
        simp [get_valid_token, promptPhase, hprompt, hte, hv]
        intro habs
        exact absurd habs.symm hte

/-- C8 (witness): no stored token and a blank prompt line raise the
configuration error with no validation call and no store write. -/
theorem get_valid_token_blank_prompt_witness :
    (get_valid_token ⟨none, fun _ => false, ""⟩).outcome = .error .configurationError ∧
    (get_valid_token ⟨none, fun _ => false, ""⟩).saves = [] ∧
    "" ∉ (get_valid_token ⟨none, fun _ => false, ""⟩).validationCalls :=
  get_valid_token_blank_prompt ⟨none, fun _ => false, ""⟩ (Or.inl rfl) (by decide)

end Dtv
